import Mathlib

/-!
Shallow embedding of the yacspin spinner engine (spinner.go, colors.go).

Conventions used throughout:
* Go `time.Duration` / `time.Time` are `Int` (int64 nanoseconds).
* `runewidth.StringWidth` is an out-of-scope collaborator; the operations that
  call it are parameterised by `widthFn : String → Nat`.  For concrete
  evaluations we instantiate it with `String.length`, which agrees with
  `runewidth.StringWidth` on the plain ASCII strings used there.
* Color style functions (`fatih/color`) are out-of-scope collaborators and are
  modelled as opaque `String → String` values; `fmt.Sprintf` applied to a
  format string without arguments is the identity (none of the inputs modelled
  here contain `%` verbs).
* The Go struct fields `prefix` / `suffix` are named `pre` / `suf` here.
* Fallible Go functions return `Except String _` or are paired with an
  `Option String` error component; `panic` branches that are unreachable in
  the sequential model carry a `panic:`-prefixed message.
* The atomically updated `status` word and the mutex-protected fields are
  combined into one record, since every theorem below is about one spinner
  observed sequentially; channel handshakes are elided, the cancellation
  channel's send/close protocol is modelled by `CancelSignal`.
-/

/-- A spinner character: display string plus its precomputed display width
(Go struct `character` with fields `Value`, `Size`). -/
structure Character where
  value : String
  size : Nat
deriving DecidableEq

/-- The seven lifecycle states (Go constants `statusStopped` .. `statusUnpausing`). -/
inductive SpinnerStatus
  | stopped
  | starting
  | running
  | stopping
  | pausing
  | paused
  | unpausing
deriving DecidableEq

/-- The lock-protected spinner state (Go struct `Spinner`; channels and the
writer are not part of the data model). -/
structure SpinnerState where
  status : SpinnerStatus
  frequency : Int
  chars : List Character
  maxWidth : Nat
  index : Nat
  pre : String
  suf : String
  message : String
  colorFn : String → String
  stopMsg : String
  stopChar : Character
  stopColorFn : String → String
  stopFailMsg : String
  stopFailChar : Character
  stopFailColorFn : String → String
  colorAll : Bool
  cursorHidden : Bool
  suffixAutoColon : Bool
  isDumbTerm : Bool
  lastPrintLen : Nat

/-- Go `padChar`: right-pad the character with spaces to `maxWidth`.  (In Go a
negative pad count would panic; all uses keep `char.Size ≤ maxWidth`, and `Nat`
subtraction truncates at 0 instead.) -/
def padChar (char : Character) (maxWidth : Nat) : String :=
  char.value ++ String.mk (List.replicate (maxWidth - char.size) ' ')

/-- Go `paint` (spinner.go lines 733-755): compose one output line from the
character, prefix, message and suffix.  The returned string is what is written
to the writer; the color function application models
`colorFn("%s%s%s%s", ...)` / `colorFn(c)` on the formatted text. -/
def paint (maxWidth : Nat) (char : Character) (pre message suf : String)
    (suffixAutoColon colorAll : Bool) (colorFn : String → String) : String :=
  if char.size = 0 then
    if colorAll then colorFn message
    else message
  else
    let c := padChar char maxWidth
    let suf2 :=
      if suffixAutoColon then
        if 0 < suf.length ∧ 0 < message.length ∧ message ≠ "\n" then suf ++ ": "
        else suf
      else suf
    if colorAll then colorFn (pre ++ c ++ suf2 ++ message)
    else pre ++ colorFn c ++ suf2 ++ message

/-- One fully composed line (helper for stating what `paint` produces when the
character is visible): the suffix argument is passed already-extended when the
auto-colon applies. -/
def composeLine (maxWidth : Nat) (char : Character) (pre suf message : String)
    (colorAll : Bool) (colorFn : String → String) : String :=
  if colorAll then colorFn (pre ++ padChar char maxWidth ++ suf ++ message)
  else pre ++ colorFn (padChar char maxWidth) ++ suf ++ message

/-- A string made only of spaces (used to state the space-only-suffix part of
the auto-colon claim). -/
def isSpaceOnly (s : String) : Bool :=
  s.data.all (fun c => c = ' ')

/-- Go `handleFrequencyUpdate` (spinner.go lines 518-540), reduced to the delay
it programs into the timer: `timeSince := time.Since(lastTick)`; if
`timeSince >= newFrequency` the timer is reset to 0, otherwise to
`newFrequency - timeSince`.  (The channel-drain loop only clears a stale timer
fire and does not affect the computed delay.) -/
def handleFrequencyUpdate (newFrequency lastTick now : Int) : Int :=
  let timeSince := now - lastTick
  if timeSince ≥ newFrequency then 0
  else newFrequency - timeSince

/-- Go `Spinner.paintUpdate` (spinner.go lines 576-638), reduced to the mutex
section that chooses the painted character and updates the stored frame index:
on a timer tick (`dataUpdate = false`) the character at the current index is
painted and the index advances with wrap-around; on a data update the previous
index is painted and the stored index is untouched.  `none` models the Go
panic on an out-of-range index. -/
def paintUpdate (s : SpinnerState) (dataUpdate : Bool) :
    Option (Character × SpinnerState) :=
  if dataUpdate then
    let i := if s.index = 0 then s.chars.length - 1 else s.index - 1
    (s.chars.get? i).map (fun c => (c, s))
  else
    let newIdx := if s.index + 1 = s.chars.length then 0 else s.index + 1
    (s.chars.get? s.index).map (fun c => (c, { s with index := newIdx }))

/-- Go `atomic.CompareAndSwapUint32` on the status word: swap succeeds exactly
when the current status equals `old`. -/
def casStatus (s : SpinnerState) (old new : SpinnerStatus) : Option SpinnerState :=
  if s.status = old then some { s with status := new } else none

/-- Go `Spinner.Start` (spinner.go lines 368-394): CAS Stopped→Starting, fresh
channels and the painter goroutine (elided), CAS Starting→Running.  Returns
the state after the call plus the error, if any. -/
def startOp (s : SpinnerState) : SpinnerState × Option String :=
  match casStatus s .stopped .starting with
  | none => (s, some "spinner already running or shutting down")
  | some s1 =>
    match casStatus s1 .starting .running with
    | none => (s1, some "panic: atomic invariant encountered")
    | some s2 => (s2, none)

/-- Go `Spinner.Pause` (spinner.go lines 406-422): CAS Running→Pausing, the
painter handshake (elided), CAS Pausing→Paused. -/
def pauseOp (s : SpinnerState) : SpinnerState × Option String :=
  match casStatus s .running .pausing with
  | none => (s, some "spinner not running")
  | some s1 =>
    match casStatus s1 .pausing .paused with
    | none => (s1, some "panic: atomic invariant encountered")
    | some s2 => (s2, none)

/-- Go `Spinner.Unpause` (spinner.go lines 429-441): CAS Paused→Unpausing, the
resume handshake (elided), CAS Unpausing→Running. -/
def unpauseOp (s : SpinnerState) : SpinnerState × Option String :=
  match casStatus s .paused .unpausing with
  | none => (s, some "spinner not paused")
  | some s1 =>
    match casStatus s1 .unpausing .running with
    | none => (s1, some "panic: atomic invariant encountered")
    | some s2 => (s2, none)

/-- What happened on the buffered (capacity 1) cancellation channel before the
painter's receive: `Stop()` sends one value and then closes
(`s.cancelCh <- struct{}{}` followed by `close`), `StopFail()` closes without
a prior send. -/
inductive CancelSignal
  | sentThenClosed
  | closedOnly
deriving DecidableEq

/-- Go channel semantics of `_, ok := <-cancel` for a capacity-1 channel:
receiving after send-then-close yields `ok = true`; receiving on a channel
closed without a send yields `ok = false`. -/
def receiveOk : CancelSignal → Bool
  | .sentThenClosed => true
  | .closedOnly => false

/-- Go `Spinner.erase`: the ANSI clear-line sequence `"\r\033[K\r"`. -/
def eraseSeq : String := "\r\x1b[K\r"

/-- Go `Spinner.hideCursor`: `"\r\033[?25l\r"`. -/
def hideCursorSeq : String := "\r\x1b[?25l\r"

/-- Go `Spinner.unhideCursor`: `"\r\033[?25h\r"`. -/
def showCursorSeq : String := "\r\x1b[?25h\r"

/-- Go `Spinner.eraseWindows`: carriage return, `lastPrintLen` spaces,
carriage return. -/
def eraseWindows (lastPrintLen : Nat) : String :=
  "\r" ++ String.mk (List.replicate lastPrintLen ' ') ++ "\r"

/-- The character/message/color-function triple `paintStop` selects under the
mutex (spinner.go lines 645-655): the stop triple when the channel receive
reported `ok`, the stop-fail triple otherwise. -/
def paintStopTriple (s : SpinnerState) (chanOk : Bool) :
    Character × String × (String → String) :=
  if chanOk then (s.stopChar, s.stopMsg, s.stopColorFn)
  else (s.stopFailChar, s.stopFailMsg, s.stopFailColorFn)

/-- Go `Spinner.paintStop` (spinner.go lines 640-698): everything written to
the writer during the terminal repaint.  Interactive mode writes the erase
sequence, the show-cursor sequence when the cursor was hidden, and — unless
the selected character has zero width and the selected message is empty — the
composed final line with a trailing newline.  Dumb-terminal mode erases by
overwriting with spaces and paints uncolored (`fmt.Sprintf`). -/
def paintStop (s : SpinnerState) (chanOk : Bool) : String :=
  let t := paintStopTriple s chanOk
  if !s.isDumbTerm then
    let ctrl := eraseSeq ++ (if s.cursorHidden then showCursorSeq else "")
    if t.1.size = 0 ∧ t.2.1 = "" then ctrl
    else ctrl ++ paint s.maxWidth t.1 s.pre (t.2.1 ++ "\n") s.suf
      s.suffixAutoColon s.colorAll t.2.2
  else
    let ctrl := eraseWindows s.lastPrintLen
    if t.1.size = 0 ∧ t.2.1 = "" then ctrl
    else ctrl ++ paint s.maxWidth t.1 s.pre (t.2.1 ++ "\n") s.suf
      s.suffixAutoColon false (fun f => f)

/-- Observable outcome of one `stop(fail)` call: the caller-visible state and
error, what happened on the cancellation channel, and the line the painter's
terminal repaint wrote. -/
structure StopResult where
  state : SpinnerState
  err : Option String
  signal : Option CancelSignal
  painted : Option String

/-- Go `Spinner.stop` (spinner.go lines 469-513) composed with the painter's
cancellation branch (lines 563-570): if the status is neither Running nor
Paused both CAS attempts fail and nothing changes; otherwise the channel is
signalled (send-then-close for `Stop`, close-only for `StopFail`), the painter
runs `paintStop` with the received `ok` flag, and the caller resets the index
and finalises Stopping→Stopped. -/
def stopRun (s : SpinnerState) (fail : Bool) : StopResult :=
  if s.status = .running ∨ s.status = .paused then
    let sig := if fail then CancelSignal.closedOnly else CancelSignal.sentThenClosed
    { state := { s with status := .stopped, index := 0 }
      err := none
      signal := some sig
      painted := some (paintStop s (receiveOk sig)) }
  else
    { state := s
      err := some "spinner not running or paused"
      signal := none
      painted := none }

/-- Go `setToCharSlice` (spinner.go lines 57-78): precompute the width of each
string and the running maximum width (`foldl Nat.max 0` mirrors the
`if n > maxWidth` accumulation). -/
def setToCharSlice (widthFn : String → Nat) (ss : List String) :
    List Character × Nat :=
  if ss = [] then ([], 0)
  else (ss.map (fun str => { value := str, size := widthFn str }),
    (ss.map widthFn).foldl Nat.max 0)

/-- Go `Spinner.CharSet` (spinner.go lines 929-951): reject an empty set,
otherwise install the new characters, reset the index, and set `maxWidth` to
the set's maximum width raised to the stop / stop-fail character widths
(`if n > mw` comparisons written as `if mw < n`). -/
def setCharSet (widthFn : String → Nat) (s : SpinnerState) (cs : List String) :
    SpinnerState × Option String :=
  if cs = [] then
    (s, some "failed to set character set:  must provide at least one string")
  else
    let p := setToCharSlice widthFn cs
    let mw1 := if p.2 < s.stopChar.size then s.stopChar.size else p.2
    let mw2 := if mw1 < s.stopFailChar.size then s.stopFailChar.size else mw1
    ({ s with chars := p.1, maxWidth := mw2, index := 0 }, none)

/-- Go `Spinner.StopCharacter` (spinner.go lines 864-877): set the stop
character and raise `maxWidth` to its width if larger (`if n > s.maxWidth`). -/
def setStopCharacter (widthFn : String → Nat) (s : SpinnerState)
    (char : String) : SpinnerState :=
  let n := widthFn char
  { s with stopChar := { value := char, size := n }
           maxWidth := if s.maxWidth < n then n else s.maxWidth }

/-- Go `Spinner.StopFailCharacter` (spinner.go lines 909-922): set the
stop-fail character and raise `maxWidth` to its width if larger. -/
def setStopFailCharacter (widthFn : String → Nat) (s : SpinnerState)
    (char : String) : SpinnerState :=
  let n := widthFn char
  { s with stopFailChar := { value := char, size := n }
           maxWidth := if s.maxWidth < n then n else s.maxWidth }

/-- One configuration operation of the kind claim C5 quantifies over. -/
inductive ConfigOp
  | charSetOp (cs : List String)
  | stopCharOp (c : String)
  | stopFailCharOp (c : String)

/-- Apply one configuration operation (a failed `CharSet` leaves the state
unchanged, as in the Go method). -/
def applyConfigOp (widthFn : String → Nat) (s : SpinnerState) :
    ConfigOp → SpinnerState
  | .charSetOp cs => (setCharSet widthFn s cs).1
  | .stopCharOp c => setStopCharacter widthFn s c
  | .stopFailCharOp c => setStopFailCharacter widthFn s c

/-- Apply a sequence of configuration operations, left to right. -/
def applyConfigOps (widthFn : String → Nat) (s : SpinnerState)
    (ops : List ConfigOp) : SpinnerState :=
  ops.foldl (applyConfigOp widthFn) s

/-- Maximum display width over a character list. -/
def charsMaxWidth (cs : List Character) : Nat :=
  (cs.map (fun c => c.size)).foldl Nat.max 0

/-- The value claim C5 says `maxWidth` always equals: the maximum display
width over the frame set together with the stop and stop-fail characters. -/
def specMaxWidth (s : SpinnerState) : Nat :=
  Nat.max (Nat.max (charsMaxWidth s.chars) s.stopChar.size) s.stopFailChar.size

/-- The keys of the `ValidColors` table (colors.go lines 23-85). -/
def validColorNames : List String :=
  ["black", "red", "green", "yellow", "blue", "magenta", "cyan", "white",
   "reset", "bold", "faint", "italic", "underline", "blinkslow", "blinkrapid",
   "reversevideo", "concealed", "crossedout",
   "fgBlack", "fgRed", "fgGreen", "fgYellow", "fgBlue", "fgMagenta", "fgCyan",
   "fgWhite",
   "fgHiBlack", "fgHiRed", "fgHiGreen", "fgHiYellow", "fgHiBlue", "fgHiMagenta",
   "fgHiCyan", "fgHiWhite",
   "bgBlack", "bgRed", "bgGreen", "bgYellow", "bgBlue", "bgMagenta", "bgCyan",
   "bgWhite",
   "bgHiBlack", "bgHiRed", "bgHiGreen", "bgHiYellow", "bgHiBlue", "bgHiMagenta",
   "bgHiCyan", "bgHiWhite"]

/-- Go `validColor` (colors.go lines 153-157): membership in `ValidColors`. -/
def validColor (c : String) : Bool :=
  validColorNames.contains c

/-- The first color name in the list failing `validColor`, if any — the
element at which the loop in Go `colorFunc` returns its error. -/
def firstInvalidColor : List String → Option String
  | [] => none
  | c :: rest => if validColor c then firstInvalidColor rest else some c

/-- Go `colorFunc` (colors.go lines 159-175): an empty list yields
`fmt.Sprintf` (identity here); otherwise the first invalid name aborts with
`"<name> is not a valid color"`, and an all-valid list yields the style
function built by the out-of-scope color collaborator (`styleOf`). -/
def colorFunc (styleOf : List String → String → String)
    (colors : List String) : Except String (String → String) :=
  if colors = [] then .ok (fun f => f)
  else
    match firstInvalidColor colors with
    | some c => .error (c ++ " is not a valid color")
    | none => .ok (styleOf colors)

/-- The configuration record (Go struct `Config`; the writer is not part of
the data model, `pre` / `suf` again stand for `Prefix` / `Suffix`). -/
structure Config where
  frequency : Int
  delay : Int
  hideCursor : Bool
  colorAll : Bool
  colors : List String
  charSet : List String
  pre : String
  suf : String
  suffixAutoColon : Bool
  message : String
  stopMessage : String
  stopCharacter : String
  stopColors : List String
  stopFailMessage : String
  stopFailCharacter : String
  stopFailColors : List String

/-- The frequency `New` validates after the deprecated-`Delay` fallback
(spinner.go lines 207-209). -/
def effectiveFrequency (cfg : Config) : Int :=
  if 0 < cfg.delay ∧ cfg.frequency = 0 then cfg.delay else cfg.frequency

/-- Modelled from the spec: the built-in character-set catalog (`CharSets`)
is plain data declared out of scope by the spec and its source file is not
under src/; `New` only needs entry 9, the default frame set, and no theorem
below depends on its contents — only on it being a fixed non-empty list. -/
def charSets9 : List String :=
  ["⠋", "⠙", "⠹", "⠸", "⠼", "⠴", "⠦", "⠧", "⠇", "⠏"]

/-- Go `New` (spinner.go lines 206-285): Delay fallback and frequency
validation, the three color-function builds (each failure wrapped and
surfaced), the default character set, `CharSet`, and the initial setters that
are only invoked for non-empty configured values.  `isDumbTerm` is the
construction-time terminal detection (`TERM == "dumb"` or Windows), an
out-of-scope collaborator passed as a flag. -/
def newSpinner (styleOf : List String → String → String)
    (widthFn : String → Nat) (isDumbTerm : Bool) (cfg : Config) :
    Except String SpinnerState :=
  if effectiveFrequency cfg < 1 then
    .error "cfg.Frequency must be greater than 0"
  else
    match colorFunc styleOf cfg.colors with
    | .error e => .error ("failed to build color function: " ++ e)
    | .ok cFn =>
      match colorFunc styleOf cfg.stopColors with
      | .error e => .error ("failed to build stop color function: " ++ e)
      | .ok stopCFn =>
        match colorFunc styleOf cfg.stopFailColors with
        | .error e => .error ("failed to build stop fail color function: " ++ e)
        | .ok stopFailCFn =>
          let cs := if cfg.charSet = [] then charSets9 else cfg.charSet
          let s0 : SpinnerState := {
            status := .stopped
            frequency := effectiveFrequency cfg
            chars := []
            maxWidth := 0
            index := 0
            pre := ""
            suf := ""
            message := ""
            colorFn := cFn
            stopMsg := ""
            stopChar := ⟨"", 0⟩
            stopColorFn := stopCFn
            stopFailMsg := ""
            stopFailChar := ⟨"", 0⟩
            stopFailColorFn := stopFailCFn
            colorAll := cfg.colorAll
            cursorHidden := cfg.hideCursor
            suffixAutoColon := cfg.suffixAutoColon
            isDumbTerm := isDumbTerm
            lastPrintLen := 0 }
          let s1 := (setCharSet widthFn s0 cs).1
          let s2 := if cfg.pre ≠ "" then { s1 with pre := cfg.pre } else s1
          let s3 := if cfg.suf ≠ "" then { s2 with suf := cfg.suf } else s2
          let s4 :=
            if cfg.message ≠ "" then { s3 with message := cfg.message } else s3
          let s5 :=
            if cfg.stopMessage ≠ "" then { s4 with stopMsg := cfg.stopMessage }
            else s4
          let s6 :=
            if cfg.stopCharacter ≠ "" then
              setStopCharacter widthFn s5 cfg.stopCharacter
            else s5
          let s7 :=
            if cfg.stopFailMessage ≠ "" then
              { s6 with stopFailMsg := cfg.stopFailMessage }
            else s6
          let s8 :=
            if cfg.stopFailCharacter ≠ "" then
              setStopFailCharacter widthFn s7 cfg.stopFailCharacter
            else s7
          .ok s8

/-- A concrete spinner state builder used by witnesses: two one-column
characters, index 1, the given lifecycle status, identity style functions. -/
def mkExampleState (st : SpinnerStatus) : SpinnerState where
  status := st
  frequency := 100
  chars := [⟨"y", 1⟩, ⟨"z", 1⟩]
  maxWidth := 1
  index := 1
  pre := "a"
  suf := " "
  message := "msg"
  colorFn := fun f => f
  stopMsg := "stop"
  stopChar := ⟨"v", 1⟩
  stopColorFn := fun f => f
  stopFailMsg := "fail"
  stopFailChar := ⟨"w", 1⟩
  stopFailColorFn := fun f => f
  colorAll := false
  cursorHidden := false
  suffixAutoColon := false
  isDumbTerm := false
  lastPrintLen := 0

/-- A stopped state with an empty frame set and zero frequency — not
constructible through `New`, but exactly the configuration claim C3 says
`Start` must reject. -/
def mkUnconfiguredState : SpinnerState where
  status := .stopped
  frequency := 0
  chars := []
  maxWidth := 0
  index := 0
  pre := ""
  suf := ""
  message := ""
  colorFn := fun f => f
  stopMsg := ""
  stopChar := ⟨"", 0⟩
  stopColorFn := fun f => f
  stopFailMsg := ""
  stopFailChar := ⟨"", 0⟩
  stopFailColorFn := fun f => f
  colorAll := false
  cursorHidden := false
  suffixAutoColon := false
  isDumbTerm := false
  lastPrintLen := 0

/-- A stopped state whose single frame is one column wide and whose stop /
stop-fail characters are unset, satisfying the C5 equality initially. -/
def mkNarrowState : SpinnerState where
  status := .stopped
  frequency := 100
  chars := [⟨"x", 1⟩]
  maxWidth := 1
  index := 0
  pre := ""
  suf := ""
  message := ""
  colorFn := fun f => f
  stopMsg := ""
  stopChar := ⟨"", 0⟩
  stopColorFn := fun f => f
  stopFailMsg := ""
  stopFailChar := ⟨"", 0⟩
  stopFailColorFn := fun f => f
  colorAll := false
  cursorHidden := false
  suffixAutoColon := false
  isDumbTerm := false
  lastPrintLen := 0

/-- A running state with a hidden cursor whose stop character has zero width
and whose stop message is empty (exercises claim C8). -/
def mkEmptyStopState : SpinnerState where
  status := .running
  frequency := 100
  chars := [⟨"y", 1⟩]
  maxWidth := 1
  index := 0
  pre := "a"
  suf := " "
  message := "msg"
  colorFn := fun f => f
  stopMsg := ""
  stopChar := ⟨"", 0⟩
  stopColorFn := fun f => f
  stopFailMsg := "fail"
  stopFailChar := ⟨"w", 1⟩
  stopFailColorFn := fun f => f
  colorAll := false
  cursorHidden := true
  suffixAutoColon := false
  isDumbTerm := false
  lastPrintLen := 0

/-- A configuration with an unrecognised color name and a valid frequency. -/
def mkBadColorConfig : Config where
  frequency := 100
  delay := 0
  hideCursor := false
  colorAll := false
  colors := ["fgGreen", "notacolor"]
  charSet := []
  pre := ""
  suf := ""
  suffixAutoColon := false
  message := ""
  stopMessage := ""
  stopCharacter := ""
  stopColors := []
  stopFailMessage := ""
  stopFailCharacter := ""
  stopFailColors := []

/-- A configuration whose frequency (and deprecated delay) are zero. -/
def mkZeroFreqConfig : Config where
  frequency := 0
  delay := 0
  hideCursor := false
  colorAll := false
  colors := []
  charSet := []
  pre := ""
  suf := ""
  suffixAutoColon := false
  message := ""
  stopMessage := ""
  stopCharacter := ""
  stopColors := []
  stopFailMessage := ""
  stopFailCharacter := ""
  stopFailColors := []

/-! ## Helper lemmas -/

/-- If the scan found no invalid name, every name is valid. -/
theorem firstInvalidColor_none :
    ∀ colors : List String, firstInvalidColor colors = none →
      ∀ c ∈ colors, validColor c = true := by
  intro colors
  induction colors with
  | nil =>
    intro _ c hc
    exact absurd hc (List.not_mem_nil c)
  | cons c0 rest ih =>
    intro h c hc
    by_cases hv : validColor c0 = true
    · rw [firstInvalidColor, if_pos hv] at h
      rcases List.mem_cons.mp hc with rfl | hc'
      · exact hv
      · exact ih h c hc'
    · rw [firstInvalidColor, if_neg hv] at h
      exact absurd h (Option.some_ne_none c0)

/-- The name the scan returns is an invalid member of the list. -/
theorem firstInvalidColor_some :
    ∀ colors : List String, ∀ c : String, firstInvalidColor colors = some c →
      c ∈ colors ∧ validColor c = false := by
  intro colors
  induction colors with
  | nil =>
    intro c h
    exact absurd h (by simp [firstInvalidColor])
  | cons c0 rest ih =>
    intro c h
    by_cases hv : validColor c0 = true
    · rw [firstInvalidColor, if_pos hv] at h
      rcases ih c h with ⟨hm, hiv⟩
      exact ⟨List.mem_cons_of_mem c0 hm, hiv⟩
    · rw [firstInvalidColor, if_neg hv] at h
      rcases Option.some_inj.mp h with rfl
      exact ⟨List.mem_cons_self c0 rest, Bool.not_eq_true _ ▸ (by simpa using hv)⟩

/-- A list containing an invalid name makes the scan return one. -/
theorem firstInvalidColor_of_invalid (colors : List String) (c : String)
    (hc : c ∈ colors) (hiv : validColor c = false) :
    ∃ c2, firstInvalidColor colors = some c2 ∧ c2 ∈ colors ∧
      validColor c2 = false := by
  cases h : firstInvalidColor colors with
  | none =>
    have := firstInvalidColor_none colors h c hc
    rw [this] at hiv
    exact absurd hiv (by simp)
  | some c2 =>
    exact ⟨c2, rfl, firstInvalidColor_some colors c2 h⟩

/-- The maximum-width fold over freshly built characters is the fold over the
widths themselves. -/
theorem charsMaxWidth_map (widthFn : String → Nat) (ss : List String) :
    charsMaxWidth (ss.map (fun str => { value := str, size := widthFn str })) =
      (ss.map widthFn).foldl Nat.max 0 := by
  simp [charsMaxWidth, List.map_map, Function.comp_def]

/-- After a successful `CharSet`, `maxWidth` is exactly the spec's maximum. -/
theorem setCharSet_specMaxWidth (widthFn : String → Nat) (s : SpinnerState)
    (cs : List String) (hcs : cs ≠ []) :
    specMaxWidth (setCharSet widthFn s cs).1 =
      (setCharSet widthFn s cs).1.maxWidth := by
  simp only [setCharSet, if_neg hcs, setToCharSlice, specMaxWidth]
  simp only [charsMaxWidth_map]
  rcases Nat.le_total ((cs.map widthFn).foldl Nat.max 0) s.stopChar.size with h1 | h1 <;>
    rcases Nat.le_total s.stopChar.size s.stopFailChar.size with h2 | h2 <;>
      simp [Nat.max_def] <;> split_ifs <;> omega

/-- `StopCharacter` preserves the upper-bound invariant on `maxWidth`. -/
theorem setStopCharacter_bound (widthFn : String → Nat) (s : SpinnerState)
    (c : String) (h : specMaxWidth s ≤ s.maxWidth) :
    specMaxWidth (setStopCharacter widthFn s c) ≤
      (setStopCharacter widthFn s c).maxWidth := by
  simp only [setStopCharacter, specMaxWidth, charsMaxWidth] at *
  simp only [Nat.max_def] at *
  split_ifs at * <;> omega

/-- `StopFailCharacter` preserves the upper-bound invariant on `maxWidth`. -/
theorem setStopFailCharacter_bound (widthFn : String → Nat) (s : SpinnerState)
    (c : String) (h : specMaxWidth s ≤ s.maxWidth) :
    specMaxWidth (setStopFailCharacter widthFn s c) ≤
      (setStopFailCharacter widthFn s c).maxWidth := by
  simp only [setStopFailCharacter, specMaxWidth, charsMaxWidth] at *
  simp only [Nat.max_def] at *
  split_ifs at * <;> omega

/-- Any single configuration operation preserves the upper-bound invariant. -/
theorem applyConfigOp_bound (widthFn : String → Nat) (s : SpinnerState)
    (op : ConfigOp) (h : specMaxWidth s ≤ s.maxWidth) :
    specMaxWidth (applyConfigOp widthFn s op) ≤
      (applyConfigOp widthFn s op).maxWidth := by
  cases op with
  | charSetOp cs =>
    by_cases hcs : cs = []
    · simpa [applyConfigOp, setCharSet, hcs] using h
    · exact Nat.le_of_eq (setCharSet_specMaxWidth widthFn s cs hcs)
  | stopCharOp c => exact setStopCharacter_bound widthFn s c h
  | stopFailCharOp c => exact setStopFailCharacter_bound widthFn s c h

/-! ## Claim theorems -/

/-- Claim C6: a frequency-changed notification reschedules the timer to fire
immediately when `now - t ≥ d`, and after exactly `d - (now - t)` otherwise. -/
theorem handleFrequencyUpdate_claim (d t now : Int) :
    (now - t ≥ d → handleFrequencyUpdate d t now = 0) ∧
    (now - t < d → handleFrequencyUpdate d t now = d - (now - t)) := by
  constructor
  · intro h
    simp only [handleFrequencyUpdate, if_pos h]
  · intro h
    simp only [handleFrequencyUpdate, if_neg (not_le.mpr h)]

/-- Witness for C6 at concrete inputs: elapsed 7 ≥ 5 fires immediately,
elapsed 2 < 5 fires after 3. -/
theorem handleFrequencyUpdate_claim_witness :
    handleFrequencyUpdate 5 0 7 = 0 ∧ handleFrequencyUpdate 5 0 2 = 5 - (2 - 0) :=
  ⟨(handleFrequencyUpdate_claim 5 0 7).1 (by decide),
   (handleFrequencyUpdate_claim 5 0 2).2 (by decide)⟩

/-- Claim C10: with a zero-display-width character the painted output is
exactly the message (styled iff `colorAll`); prefix, suffix and the
auto-colon flag are ignored. -/
theorem paint_zeroWidth (maxWidth : Nat) (char : Character)
    (pre message suf : String) (suffixAutoColon colorAll : Bool)
    (colorFn : String → String) (h : char.size = 0) :
    paint maxWidth char pre message suf suffixAutoColon colorAll colorFn =
      if colorAll then colorFn message else message := by
  simp only [paint, if_pos h]

/-- Witness for C10: zero-width character, non-trivial prefix/suffix/flags,
in both color modes. -/
theorem paint_zeroWidth_witness :
    paint 3 ⟨"", 0⟩ "pfx" "msg" "sfx" true false (fun f => f ++ f) = "msg" ∧
    paint 3 ⟨"", 0⟩ "pfx" "msg" "sfx" true true (fun f => f ++ f) = "msgmsg" :=
  ⟨paint_zeroWidth 3 ⟨"", 0⟩ "pfx" "msg" "sfx" true false (fun f => f ++ f) rfl,
   paint_zeroWidth 3 ⟨"", 0⟩ "pfx" "msg" "sfx" true true (fun f => f ++ f) rfl⟩

/-- Counterexample for C2: the code inserts the colon after any *non-empty*
suffix, including a space-only one.  With suffix `" "` (space-only), message
`"m"`, `suffixAutoColon = true` and a width-1 character, the painted line is
`"x : m"` — the colon is inserted even though the claim says a space-only
suffix gets none. -/
theorem paint_autoColon_spaceOnly_cex :
    isSpaceOnly " " = true ∧
    paint 1 ⟨"x", 1⟩ "" "m" " " true false (fun f => f) = "x : m" := by
  constructor
  · rfl
  · rfl

/-- Claim C2 as amended: for a character of positive display width with
`suffixAutoColon = true`, the painted line is composed with `": "` appended to
the suffix iff the suffix is non-empty (not: non-space-only), the message is
non-empty, and the message is not exactly `"\n"`; otherwise the suffix is used
unchanged. -/
theorem paint_autoColon_amended (maxWidth : Nat) (char : Character)
    (pre message suf : String) (colorAll : Bool) (colorFn : String → String)
    (h : char.size ≠ 0) :
    paint maxWidth char pre message suf true colorAll colorFn =
      if 0 < suf.length ∧ 0 < message.length ∧ message ≠ "\n" then
        composeLine maxWidth char pre (suf ++ ": ") message colorAll colorFn
      else
        composeLine maxWidth char pre suf message colorAll colorFn := by
  by_cases hP : 0 < suf.length ∧ 0 < message.length ∧ message ≠ "\n"
  · simp only [paint, composeLine, if_neg h, if_pos hP, Bool.ite_eq_true_distrib,
      if_true]
  · simp only [paint, composeLine, if_neg h, if_neg hP, if_true]

/-- Witness for C2 (amended): the amended claim applied at a concrete input
with a non-space suffix and a non-empty message. -/
theorem paint_autoColon_amended_witness :
    paint 1 ⟨"y", 1⟩ "a" "msg" " s" true false (fun f => f) =
      if 0 < " s".length ∧ 0 < "msg".length ∧ "msg" ≠ "\n" then
        composeLine 1 ⟨"y", 1⟩ "a" (" s" ++ ": ") "msg" false (fun f => f)
      else
        composeLine 1 ⟨"y", 1⟩ "a" " s" "msg" false (fun f => f) :=
  paint_autoColon_amended 1 ⟨"y", 1⟩ "a" "msg" " s" false (fun f => f) (by decide)

/-- Claim C1: with a non-empty character set (index in range), a data-update
repaint paints the character at `(index - 1) mod length` (written
`(index + length - 1) % length` over `Nat`) and leaves the state unchanged,
while a timer-tick repaint paints the character at the current index and
advances the stored index to `(index + 1) % length`. -/
theorem paintUpdate_claim (s : SpinnerState) (h : s.index < s.chars.length) :
    paintUpdate s true =
      (s.chars.get? ((s.index + s.chars.length - 1) % s.chars.length)).map
        (fun c => (c, s)) ∧
    paintUpdate s false =
      (s.chars.get? s.index).map
        (fun c => (c, { s with index := (s.index + 1) % s.chars.length })) := by
  have hlen : 0 < s.chars.length := by omega
  have e1 : (if s.index = 0 then s.chars.length - 1 else s.index - 1)
      = (s.index + s.chars.length - 1) % s.chars.length := by
    rcases Nat.eq_zero_or_pos s.index with h0 | h0
    · rw [if_pos h0, h0, Nat.mod_eq_of_lt (by omega)]
      omega
    · rw [if_neg (by omega)]
      have h1 : s.index + s.chars.length - 1 = (s.index - 1) + s.chars.length := by
        omega
      rw [h1, Nat.add_mod_right, Nat.mod_eq_of_lt (by omega)]
  have e2 : (if s.index + 1 = s.chars.length then 0 else s.index + 1)
      = (s.index + 1) % s.chars.length := by
    rcases Nat.lt_or_ge (s.index + 1) s.chars.length with h1 | h1
    · rw [if_neg (by omega), Nat.mod_eq_of_lt h1]
    · have h2 : s.index + 1 = s.chars.length := by omega
      rw [if_pos h2, h2, Nat.mod_self]
  refine ⟨?_, ?_⟩
  · simp [paintUpdate, e1]
  · simp [paintUpdate, e2]

/-- Witness for C1 at the concrete running state (index 1 of 2). -/
theorem paintUpdate_claim_witness :
    paintUpdate (mkExampleState .running) true =
      ((mkExampleState .running).chars.get?
          (((mkExampleState .running).index + (mkExampleState .running).chars.length - 1) %
            (mkExampleState .running).chars.length)).map
        (fun c => (c, mkExampleState .running)) ∧
    paintUpdate (mkExampleState .running) false =
      ((mkExampleState .running).chars.get? (mkExampleState .running).index).map
        (fun c => (c, { mkExampleState .running with
          index := ((mkExampleState .running).index + 1) %
            (mkExampleState .running).chars.length })) :=
  paintUpdate_claim (mkExampleState .running) (by decide)

/-- Counterexample for C3: `Start` performs no misconfiguration check.  On a
stopped state with an empty frame set and zero frequency it succeeds (returns
no error) instead of failing with a "misconfigured" error as the claim
requires. -/
theorem start_noMisconfigCheck_cex :
    mkUnconfiguredState.chars = [] ∧
    mkUnconfiguredState.frequency = 0 ∧
    mkUnconfiguredState.status = SpinnerStatus.stopped ∧
    (startOp mkUnconfiguredState).2 = none :=
  ⟨rfl, rfl, rfl, rfl⟩

/-- Claim C3 as amended: `Start` returns the "already active" error exactly
when the status is not Stopped, and otherwise moves Stopped → Starting →
Running and returns no error; `Start` itself performs no configuration
validation — a non-positive effective frequency is instead rejected by `New`
at construction time (and `New` always installs a non-empty frame set). -/
theorem start_claim (s : SpinnerState) (styleOf : List String → String → String)
    (widthFn : String → Nat) (dumb : Bool) (cfg : Config) :
    (s.status ≠ .stopped →
      startOp s = (s, some "spinner already running or shutting down")) ∧
    (s.status = .stopped →
      casStatus s .stopped .starting = some { s with status := .starting } ∧
      casStatus { s with status := .starting } .starting .running =
        some { s with status := .running } ∧
      startOp s = ({ s with status := .running }, none)) ∧
    (effectiveFrequency cfg < 1 →
      newSpinner styleOf widthFn dumb cfg =
        .error "cfg.Frequency must be greater than 0") := by
  refine ⟨?_, ?_, ?_⟩
  · intro h
    simp [startOp, casStatus, h]
  · intro h
    simp [startOp, casStatus, h]
  · intro h
    simp [newSpinner, if_pos h]

/-- Witness for C3 (amended): rejection on a running state, success on a
stopped state, and `New` rejecting a zero frequency. -/
theorem start_claim_witness :
    startOp (mkExampleState .running) =
      (mkExampleState .running, some "spinner already running or shutting down") ∧
    startOp (mkExampleState .stopped) =
      ({ mkExampleState .stopped with status := .running }, none) ∧
    newSpinner (fun _ f => f) String.length false mkZeroFreqConfig =
      .error "cfg.Frequency must be greater than 0" :=
  ⟨(start_claim (mkExampleState .running) (fun _ f => f) String.length false
      mkZeroFreqConfig).1 (by decide),
   ((start_claim (mkExampleState .stopped) (fun _ f => f) String.length false
      mkZeroFreqConfig).2.1 rfl).2.2,
   (start_claim (mkExampleState .stopped) (fun _ f => f) String.length false
      mkZeroFreqConfig).2.2 (by decide)⟩

/-- Claim C4: from any Running or Paused state, `Stop()` sends one value and
then closes the cancellation channel and the terminal repaint uses the
stop-message/stop-character/stop-color triple, while `StopFail()` closes the
channel without a prior send and the repaint uses the stop-fail triple. -/
theorem stop_variants_claim (s : SpinnerState)
    (h : s.status = .running ∨ s.status = .paused) :
    ((stopRun s false).signal = some .sentThenClosed ∧
     (stopRun s false).err = none ∧
     (stopRun s false).painted = some (paintStop s true) ∧
     paintStopTriple s true = (s.stopChar, s.stopMsg, s.stopColorFn)) ∧
    ((stopRun s true).signal = some .closedOnly ∧
     (stopRun s true).err = none ∧
     (stopRun s true).painted = some (paintStop s false) ∧
     paintStopTriple s false =
       (s.stopFailChar, s.stopFailMsg, s.stopFailColorFn)) := by
  refine ⟨⟨?_, ?_, ?_, rfl⟩, ⟨?_, ?_, ?_, rfl⟩⟩ <;>
    simp [stopRun, if_pos h, receiveOk]

/-- Witness for C4 at a concrete running state. -/
theorem stop_variants_claim_witness :
    ((stopRun (mkExampleState .running) false).signal = some .sentThenClosed ∧
     (stopRun (mkExampleState .running) false).err = none ∧
     (stopRun (mkExampleState .running) false).painted =
       some (paintStop (mkExampleState .running) true) ∧
     paintStopTriple (mkExampleState .running) true =
       ((mkExampleState .running).stopChar, (mkExampleState .running).stopMsg,
        (mkExampleState .running).stopColorFn)) ∧
    ((stopRun (mkExampleState .running) true).signal = some .closedOnly ∧
     (stopRun (mkExampleState .running) true).err = none ∧
     (stopRun (mkExampleState .running) true).painted =
       some (paintStop (mkExampleState .running) false) ∧
     paintStopTriple (mkExampleState .running) false =
       ((mkExampleState .running).stopFailChar,
        (mkExampleState .running).stopFailMsg,
        (mkExampleState .running).stopFailColorFn)) :=
  stop_variants_claim (mkExampleState .running) (Or.inl rfl)

/-- Claim C7: each lifecycle operation called in an illegal state returns an
error synchronously and leaves the whole spinner state unchanged: `Start`
unless Stopped, `Pause` unless Running, `Unpause` unless Paused,
`Stop`/`StopFail` unless Running or Paused (no channel signal, no repaint). -/
theorem lifecycle_illegal_noop (s : SpinnerState) (fail : Bool) :
    (s.status ≠ .stopped →
      startOp s = (s, some "spinner already running or shutting down")) ∧
    (s.status ≠ .running → pauseOp s = (s, some "spinner not running")) ∧
    (s.status ≠ .paused → unpauseOp s = (s, some "spinner not paused")) ∧
    (s.status ≠ .running → s.status ≠ .paused →
      stopRun s fail =
        { state := s, err := some "spinner not running or paused",
          signal := none, painted := none }) := by
  refine ⟨?_, ?_, ?_, ?_⟩
  · intro h
    simp [startOp, casStatus, h]
  · intro h
    simp [pauseOp, casStatus, h]
  · intro h
    simp [unpauseOp, casStatus, h]
  · intro h1 h2
    have hno : ¬ (s.status = .running ∨ s.status = .paused) := by
      intro hor
      rcases hor with h | h
      · exact h1 h
      · exact h2 h
    simp [stopRun, if_neg hno]

/-- Witness for C7: each operation rejected at a concrete illegal state. -/
theorem lifecycle_illegal_noop_witness :
    startOp (mkExampleState .running) =
      (mkExampleState .running, some "spinner already running or shutting down") ∧
    pauseOp (mkExampleState .stopped) =
      (mkExampleState .stopped, some "spinner not running") ∧
    unpauseOp (mkExampleState .stopped) =
      (mkExampleState .stopped, some "spinner not paused") ∧
    stopRun (mkExampleState .stopped) false =
      { state := mkExampleState .stopped,
        err := some "spinner not running or paused",
        signal := none, painted := none } :=
  ⟨(lifecycle_illegal_noop (mkExampleState .running) false).1 (by decide),
   (lifecycle_illegal_noop (mkExampleState .stopped) false).2.1 (by decide),
   (lifecycle_illegal_noop (mkExampleState .stopped) false).2.2.1 (by decide),
   (lifecycle_illegal_noop (mkExampleState .stopped) false).2.2.2 (by decide)
     (by decide)⟩

/-- Claim C8: when the selected stop (or stop-fail) character has zero
display width and the corresponding message is empty, the terminal repaint
writes only the erase sequence plus — when cursor hiding is enabled — the
show-cursor sequence (in dumb-terminal mode, only the space-overwrite erase),
and no line text at all. -/
theorem paintStop_emptyGlyph (s : SpinnerState) (chanOk : Bool)
    (h1 : (paintStopTriple s chanOk).1.size = 0)
    (h2 : (paintStopTriple s chanOk).2.1 = "") :
    paintStop s chanOk =
      if s.isDumbTerm then eraseWindows s.lastPrintLen
      else eraseSeq ++ (if s.cursorHidden then showCursorSeq else "") := by
  cases hd : s.isDumbTerm <;> simp [paintStop, hd, h1, h2]

/-- Witness for C8 at a concrete state with hidden cursor, zero-width stop
character and empty stop message. -/
theorem paintStop_emptyGlyph_witness :
    paintStop mkEmptyStopState true =
      if mkEmptyStopState.isDumbTerm then
        eraseWindows mkEmptyStopState.lastPrintLen
      else
        eraseSeq ++
          (if mkEmptyStopState.cursorHidden then showCursorSeq else "") :=
  paintStop_emptyGlyph mkEmptyStopState true rfl rfl

/-- Counterexample for C5: replacing a width-2 stop character by a width-1
one leaves `maxWidth` at 2 while the maximum display width over the frame set
and both stop characters is 1 — the claimed equality fails after the sequence
`StopCharacter "ab"; StopCharacter "a"` even though it held initially.
(`String.length` agrees with `runewidth.StringWidth` on these ASCII strings.) -/
theorem maxWidth_cex :
    specMaxWidth mkNarrowState = mkNarrowState.maxWidth ∧
    (applyConfigOps String.length mkNarrowState
        [ConfigOp.stopCharOp "ab", ConfigOp.stopCharOp "a"]).maxWidth = 2 ∧
    specMaxWidth (applyConfigOps String.length mkNarrowState
        [ConfigOp.stopCharOp "ab", ConfigOp.stopCharOp "a"]) = 1 :=
  ⟨rfl, rfl, rfl⟩

/-- Claim C5 as amended: after any sequence of `CharSet`, `StopCharacter` and
`StopFailCharacter` operations from a state satisfying the bound, `maxWidth`
is an *upper bound* on the maximum display width over the frame set and both
stop characters (padding never truncates), and it *equals* that maximum
whenever the most recent operation is a successful `CharSet`; shrinking a
stop character can leave `maxWidth` strictly above the maximum. -/
theorem maxWidth_amended (widthFn : String → Nat) (s : SpinnerState)
    (ops : List ConfigOp) (h : specMaxWidth s ≤ s.maxWidth) :
    specMaxWidth (applyConfigOps widthFn s ops) ≤
      (applyConfigOps widthFn s ops).maxWidth ∧
    (∀ cs, cs ≠ [] →
      specMaxWidth (setCharSet widthFn (applyConfigOps widthFn s ops) cs).1 =
        (setCharSet widthFn (applyConfigOps widthFn s ops) cs).1.maxWidth) := by
  constructor
  · induction ops generalizing s with
    | nil => exact h
    | cons op rest ih =>
      exact ih (applyConfigOp widthFn s op) (applyConfigOp_bound widthFn s op h)
  · intro cs hcs
    exact setCharSet_specMaxWidth widthFn (applyConfigOps widthFn s ops) cs hcs

/-- Witness for C5 (amended) after a concrete operation sequence. -/
theorem maxWidth_amended_witness :
    specMaxWidth (applyConfigOps String.length mkNarrowState
        [ConfigOp.stopCharOp "ab"]) ≤
      (applyConfigOps String.length mkNarrowState
        [ConfigOp.stopCharOp "ab"]).maxWidth ∧
    (∀ cs, cs ≠ [] →
      specMaxWidth (setCharSet String.length (applyConfigOps String.length
          mkNarrowState [ConfigOp.stopCharOp "ab"]) cs).1 =
        (setCharSet String.length (applyConfigOps String.length
          mkNarrowState [ConfigOp.stopCharOp "ab"]) cs).1.maxWidth) :=
  maxWidth_amended String.length mkNarrowState [ConfigOp.stopCharOp "ab"]
    (by decide)

/-- Claim C9: building a style function from a list containing an invalid
name fails with an error message that is the offending name followed by
`" is not a valid color"`; constructing a spinner whose Colors list contains
such a name fails with that message wrapped (no spinner is returned); an
all-valid list produces no error. -/
theorem colorFunc_claim (styleOf : List String → String → String)
    (widthFn : String → Nat) (dumb : Bool) (colors : List String)
    (cfg : Config) :
    ((∃ c ∈ colors, validColor c = false) →
      ∃ c ∈ colors, validColor c = false ∧
        colorFunc styleOf colors = .error (c ++ " is not a valid color")) ∧
    ((∀ c ∈ colors, validColor c = true) →
      ∃ f, colorFunc styleOf colors = .ok f) ∧
    ((∃ c ∈ cfg.colors, validColor c = false) → 1 ≤ effectiveFrequency cfg →
      ∃ c ∈ cfg.colors, validColor c = false ∧
        newSpinner styleOf widthFn dumb cfg =
          .error ("failed to build color function: " ++
            (c ++ " is not a valid color"))) := by
  refine ⟨?_, ?_, ?_⟩
  · rintro ⟨c, hc, hiv⟩
    obtain ⟨c2, hfic, hc2, hiv2⟩ := firstInvalidColor_of_invalid colors c hc hiv
    have hne : colors ≠ [] := by
      rintro rfl
      exact absurd hc (List.not_mem_nil c)
    exact ⟨c2, hc2, hiv2, by simp [colorFunc, if_neg hne, hfic]⟩
  · intro hall
    by_cases hne : colors = []
    · exact ⟨fun f => f, by simp [colorFunc, hne]⟩
    · cases hfic : firstInvalidColor colors with
      | none => exact ⟨styleOf colors, by simp [colorFunc, if_neg hne, hfic]⟩
      | some c =>
        rcases firstInvalidColor_some colors c hfic with ⟨hm, hiv⟩
        rw [hall c hm] at hiv
        exact absurd hiv (by simp)
  · rintro ⟨c, hc, hiv⟩ hfreq
    obtain ⟨c2, hfic, hc2, hiv2⟩ :=
      firstInvalidColor_of_invalid cfg.colors c hc hiv
    have hne : cfg.colors ≠ [] := by
      intro hnil
      rw [hnil] at hc
      exact absurd hc (List.not_mem_nil c)
    refine ⟨c2, hc2, hiv2, ?_⟩
    have hcf : colorFunc styleOf cfg.colors =
        .error (c2 ++ " is not a valid color") := by
      simp [colorFunc, if_neg hne, hfic]
    simp [newSpinner, if_neg (by omega : ¬ effectiveFrequency cfg < 1), hcf]

/-- Witness for C9: the invalid name "notacolor" is reported verbatim both by
the style-function builder and by construction, and a valid list builds. -/
theorem colorFunc_claim_witness :
    (∃ c ∈ mkBadColorConfig.colors, validColor c = false ∧
      colorFunc (fun _ f => f) mkBadColorConfig.colors =
        .error (c ++ " is not a valid color")) ∧
    (∃ f, colorFunc (fun _ f => f) ["fgGreen", "bold"] = .ok f) ∧
    (∃ c ∈ mkBadColorConfig.colors, validColor c = false ∧
      newSpinner (fun _ f => f) String.length false mkBadColorConfig =
        .error ("failed to build color function: " ++
          (c ++ " is not a valid color"))) :=
  ⟨(colorFunc_claim (fun _ f => f) String.length false mkBadColorConfig.colors
      mkBadColorConfig).1 ⟨"notacolor", by decide, by decide⟩,
   (colorFunc_claim (fun _ f => f) String.length false ["fgGreen", "bold"]
      mkBadColorConfig).2.1 (by decide),
   (colorFunc_claim (fun _ f => f) String.length false mkBadColorConfig.colors
      mkBadColorConfig).2.2 ⟨"notacolor", by decide, by decide⟩ (by decide)⟩
